/-
Verification of the DataVizPro data-analysis engine.

This file gives a shallow embedding, in Lean 4, of the computational core of
the DataVizPro repository:

* `src/lib/excel-parser.ts` (type inference `detectColumnType`, column
  summaries `analyzeColumn`, the aggregation engine `aggregateData`);
* `src/lib/data-profiling.ts` (column profiling `profileColumn`, Pearson
  correlation `calculatePearsonCorrelation`, correlation generation from
  `generateDataProfile`);
* `src/lib/data-quality.ts` (`detectOutliers`, `detectMixedTypes`,
  `findDuplicates`, `analyzeDataQuality`).

Cell values are dynamically typed JavaScript values; they are modelled by the
closed variant `Val` below.  JavaScript numbers are modelled by `ℚ` (the
analysed programs only ever combine input values with +, -, *, /, Math.min,
Math.max, Math.floor, Math.round and comparisons, all of which are exact on
rationals); the IEEE value NaN is modelled by `Option.none` at the points
where the code can produce it, and the aggregation engine, which can also
produce infinities, computes in the four-constructor type `JsNum`.

Host primitives that the engine calls are modelled explicitly and are named
`js...`:

* `jsStrToNum` models `Number(string)`: optional sign, an integer part and an
  optional fractional part (the exotic forms — exponents, hex, the string
  "Infinity" — are outside the model; no claim depends on them);
* `jsDateParseable` models `Date.parse` success on a string: two or three
  nonempty digit groups separated by `/` or by `-`;
* `jsToString` models `String(v)`; on numbers it is exact for integers, which
  are the only numbers any theorem below turns into strings;
* `jsSort` models `Array.prototype.sort(comparefn)`: a stable sort that puts
  `x` after `y` exactly when `comparefn(y, x) > 0`, which is the behaviour of
  the engine's insertion sort for consistent comparators.
-/
import Mathlib

namespace DataViz

/-! ## JavaScript value model -/

/-- A spreadsheet cell value as the TypeScript code sees it:
`number | string | boolean | Date | null | undefined`. -/
inductive Val where
  | vNull
  | vUndefined
  | vNum (q : ℚ)
  | vStr (s : String)
  | vBool (b : Bool)
  | vDate (ms : ℚ)
deriving DecidableEq, Repr, Inhabited

/-- The filter `v !== null && v !== undefined && v !== ''` used throughout the
source to select non-null values. -/
def keepVal : Val → Bool
  | .vNull => false
  | .vUndefined => false
  | .vStr "" => false
  | _ => true

/-- All characters of the list are decimal digits (and there is at least one). -/
def allDigits : List Char → Bool
  | [] => false
  | cs => cs.all (fun c => '0' ≤ c && c ≤ '9')

/-- Value of a digit string. -/
def digitsVal (cs : List Char) : ℕ :=
  cs.foldl (fun acc c => acc * 10 + (c.toNat - '0'.toNat)) 0

/-- Split a character list at every occurrence of `sep`. -/
def splitSep (sep : Char) : List Char → List (List Char)
  | [] => [[]]
  | c :: cs =>
    let rest := splitSep sep cs
    if c = sep then [] :: rest
    else match rest with
      | [] => [[c]]
      | g :: gs => (c :: g) :: gs

/-- Model of `Number(s)` for a string `s`; `Option.none` models NaN.
The empty string converts to `0`; otherwise an optional sign followed by
digits with an optional fractional part is accepted. -/
def jsStrToNum (s : String) : Option ℚ :=
  let core : List Char → Option ℚ := fun cs =>
    match splitSep '.' cs with
    | [intPart] =>
      if allDigits intPart then some (digitsVal intPart) else none
    | [intPart, fracPart] =>
      if allDigits intPart && allDigits fracPart then
        some ((digitsVal intPart : ℚ) +
          (digitsVal fracPart : ℚ) / ((10 : ℚ) ^ fracPart.length))
      else none
    | _ => none
  match s.data with
  | [] => some 0
  | '-' :: cs => (core cs).map (fun q => -q)
  | '+' :: cs => core cs
  | cs => core cs

/-- Model of the JavaScript coercion `Number(v)`; `Option.none` models NaN.
`Number(null) = 0`, `Number(undefined) = NaN`, booleans coerce to 0/1 and a
Date to its millisecond timestamp. -/
def jsToNumber : Val → Option ℚ
  | .vNull => some 0
  | .vUndefined => none
  | .vNum q => some q
  | .vBool b => some (if b then 1 else 0)
  | .vDate ms => some ms
  | .vStr s => jsStrToNum s

/-- Rendering of a rational as a string; exact for the integral JavaScript
numbers that the theorems below print. -/
def ratToString (q : ℚ) : String :=
  if q.den = 1 then toString q.num else toString q.num ++ "/" ++ toString q.den

/-- Model of the JavaScript coercion `String(v)`. -/
def jsToString : Val → String
  | .vNull => "null"
  | .vUndefined => "undefined"
  | .vNum q => ratToString q
  | .vStr s => s
  | .vBool true => "true"
  | .vBool false => "false"
  | .vDate ms => "[Date " ++ ratToString ms ++ "]"

/-- JavaScript truthiness of a cell value. -/
def truthy : Val → Bool
  | .vNull => false
  | .vUndefined => false
  | .vBool b => b
  | .vNum q => decide (q ≠ 0)
  | .vStr s => decide (s ≠ "")
  | .vDate _ => true

/-- `s.includes(c)` for a one-character needle, as used with `'/'` and `'-'`. -/
def strContains (s : String) (c : Char) : Bool :=
  s.data.contains c

/-- Model of `!isNaN(Date.parse(s))` for a string `s`: two or three nonempty
digit groups separated by `/` or by `-`. -/
def jsDateParseable (s : String) : Bool :=
  let groups : List (List Char) → Bool := fun gs =>
    (gs.length = 2 || gs.length = 3) && gs.all allDigits
  groups (splitSep '/' s.data) || groups (splitSep '-' s.data)

/-- A row: the ordered field set of one parsed spreadsheet record. -/
abbrev Row := List (String × Val)

/-- Property access `row[name]`; a missing field reads as `undefined`. -/
def getCell (r : Row) (name : String) : Val :=
  (r.lookup name).getD .vUndefined

/-! ## Type inference (`detectColumnType`, excel-parser.ts) -/

/-- The four inferred column types. -/
inductive ColType where
  | number
  | string
  | date
  | boolean
deriving DecidableEq, Repr

/-- The boolean predicate of `detectColumnType`:
`typeof v === 'boolean' || v === 'true' || v === 'false'`. -/
def isBoolLike : Val → Bool
  | .vBool _ => true
  | .vStr "true" => true
  | .vStr "false" => true
  | _ => false

/-- The number predicate of `detectColumnType`:
`!isNaN(Number(v)) && v !== ''`. -/
def isNumLike (v : Val) : Bool :=
  (jsToNumber v).isSome && decide (v ≠ .vStr "")

/-- The date predicate of `detectColumnType`, including its two quirks: the
missing parenthesis makes it `(parses && includes '/') || includes '-'`, and
on a value that is neither a `Date` nor a string the trailing
`v.includes('-')` call throws a TypeError, modelled by `Except.error`. -/
def datePred : Val → Except Unit Bool
  | .vDate _ => .ok true
  | .vStr s => .ok ((jsDateParseable s && strContains s '/') || strContains s '-')
  | _ => .error ()

/-- `values.filter(datePred).length`: the callback runs left to right and the
first TypeError aborts the whole call. -/
def countDateLike : List Val → Except Unit ℕ
  | [] => .ok 0
  | v :: vs =>
    match datePred v with
    | .error e => .error e
    | .ok b =>
      match countDateLike vs with
      | .error e => .error e
      | .ok n => .ok (if b then n + 1 else n)

/-- `detectColumnType` from excel-parser.ts: filter out null/undefined/empty
string; default `string` on an empty remainder; otherwise test boolean, then
number, then date, each against a strict 80% threshold of the non-null
count. -/
def detectColumnType (values : List Val) : Except Unit ColType :=
  let nonNull := values.filter keepVal
  if nonNull.length = 0 then .ok .string
  else if ((nonNull.filter isBoolLike).length : ℚ) / nonNull.length > 0.8 then .ok .boolean
  else if ((nonNull.filter isNumLike).length : ℚ) / nonNull.length > 0.8 then .ok .number
  else
    match countDateLike nonNull with
    | .error e => .error e
    | .ok dateCount =>
      if (dateCount : ℚ) / nonNull.length > 0.8 then .ok .date else .ok .string

/-- Type inference as the specification describes it: filter out
null/undefined/empty-string values, default to `string` when none remain,
otherwise let the first of the predicates boolean, number, date whose
fraction of the non-null values strictly exceeds 80% decide, falling through
to `string`.  (The date predicate can throw, which propagates.) -/
def detectColumnTypeSpec (values : List Val) : Except Unit ColType :=
  let nonNull := values.filter keepVal
  let frac : (Val → Bool) → ℚ := fun p => ((nonNull.filter p).length : ℚ) / nonNull.length
  if nonNull = [] then .ok .string
  else if frac isBoolLike > 0.8 then .ok .boolean
  else if frac isNumLike > 0.8 then .ok .number
  else
    match countDateLike nonNull with
    | .error e => .error e
    | .ok dateCount =>
      if (dateCount : ℚ) / nonNull.length > 0.8 then .ok .date else .ok .string

/-! ## Column summaries (`analyzeColumn`, excel-parser.ts) -/

/-- `Math.min(...numbers)` for a nonempty list. -/
def listMin : List ℚ → ℚ
  | [] => 0
  | x :: xs => xs.foldl min x

/-- `Math.max(...numbers)` for a nonempty list. -/
def listMax : List ℚ → ℚ
  | [] => 0
  | x :: xs => xs.foldl max x

/-- `numbers.reduce((a, b) => a + b, 0)`. -/
def listSum (l : List ℚ) : ℚ :=
  l.foldl (· + ·) 0

/-- The `ColumnInfo` record of excel-parser.ts. -/
structure ColumnInfo where
  name : String
  type : ColType
  uniqueValues : ℕ
  nullCount : ℕ
  min? : Option ℚ := none
  max? : Option ℚ := none
  sum? : Option ℚ := none
  avg? : Option ℚ := none
deriving DecidableEq, Repr

/-- `analyzeColumn` from excel-parser.ts.  The `Set` counting distinct
non-null values is modelled by `List.dedup`. -/
def analyzeColumn (name : String) (values : List Val) : Except Unit ColumnInfo :=
  match detectColumnType values with
  | .error e => .error e
  | .ok type =>
    let nonNull := values.filter keepVal
    let base : ColumnInfo :=
      { name := name, type := type, uniqueValues := nonNull.dedup.length,
        nullCount := values.length - nonNull.length }
    if type = .number then
      let numbers := nonNull.filterMap jsToNumber
      if numbers.isEmpty then .ok base
      else
        .ok { base with
          min? := some (listMin numbers), max? := some (listMax numbers),
          sum? := some (listSum numbers),
          avg? := some (listSum numbers / numbers.length) }
    else .ok base

/-- A parsed sheet, as handed to the profiling and quality engines:
the rows plus the per-column summaries computed at parse time.
(`rowCount` is always `rows.length` and `headers` mirrors the first row's
keys; neither needs a separate field for the engines modelled here.) -/
structure ParsedData where
  rows : List Row
  columns : List ColumnInfo

/-- `sheet.rows.map(row => row[name])`. -/
def cellsOf (rows : List Row) (name : String) : List Val :=
  rows.map (fun r => getCell r name)

/-! ## `Array.prototype.sort` model -/

/-- Insert `x` into the sorted prefix: `x` goes immediately before the first
`y` with `comparefn(y, x) > 0` (the argument `gt y x` decides that test), so
it lands after every element the comparator does not order after it —
exactly the stable behaviour of the engine's insertion sort. -/
def insertAsc (gt : α → α → Bool) (x : α) : List α → List α
  | [] => [x]
  | y :: ys => if gt y x then x :: y :: ys else y :: insertAsc gt x ys

/-- Stable sort model of `array.sort(comparefn)`; `gt y x` models
`comparefn(y, x) > 0`. -/
def jsSort (gt : α → α → Bool) (l : List α) : List α :=
  l.foldl (fun acc x => insertAsc gt x acc) []

/-! ## Aggregation engine (`aggregateData`, excel-parser.ts) -/

/-- A JavaScript number as the aggregation engine can produce it: finite,
NaN (`avg` of an empty group) or an infinity (`min`/`max` of an empty
group). -/
inductive JsNum where
  | num (q : ℚ)
  | nan
  | posInf
  | negInf
deriving DecidableEq, Repr

/-- Subtraction on `JsNum`, as needed by the sort comparator
`(a, b) => b.value - a.value`. -/
def jsSub : JsNum → JsNum → JsNum
  | .nan, _ => .nan
  | _, .nan => .nan
  | .posInf, .posInf => .nan
  | .posInf, _ => .posInf
  | .negInf, .negInf => .nan
  | .negInf, _ => .negInf
  | .num _, .posInf => .negInf
  | .num _, .negInf => .posInf
  | .num a, .num b => .num (a - b)

/-- `x > 0` on `JsNum` (false on NaN). -/
def jsPosi : JsNum → Bool
  | .num q => decide (q > 0)
  | .posInf => true
  | _ => false

/-- `Math.round(v * 100) / 100`. -/
def jsRound2 : JsNum → JsNum
  | .num q => .num ((round (q * 100) : ℤ) / 100)
  | .nan => .nan
  | .posInf => .posInf
  | .negInf => .negInf

/-- The five aggregation operations. -/
inductive AggOp where
  | sum
  | avg
  | count
  | min
  | max
deriving DecidableEq, Repr

/-- The `switch (aggregationType)` reduction over one group's collected
values.  `avg` of an empty group is `0/0 = NaN`; `Math.min()` of no
arguments is `Infinity` and `Math.max()` is `-Infinity`. -/
def reduceOp (op : AggOp) (vs : List ℚ) : JsNum :=
  match op with
  | .sum => .num (listSum vs)
  | .avg => if vs.length = 0 then .nan else .num (listSum vs / vs.length)
  | .count => .num vs.length
  | .min => match vs with | [] => .posInf | _ => .num (listMin vs)
  | .max => match vs with | [] => .negInf | _ => .num (listMax vs)

/-- The group key `String(row[groupBy] || 'Unknown')`: any falsy cell —
null, undefined, `0`, `false`, the empty string — keys the row under
`"Unknown"`. -/
def jsGroupKey (v : Val) : String :=
  if truthy v then jsToString v else "Unknown"

/-- `grouped[key].push(value)` when the key is present. -/
def pushGroup : List (String × List ℚ) → String → ℚ → List (String × List ℚ)
  | [], k, q => [(k, [q])]
  | (k', vs) :: rest, k, q =>
    if k' = k then (k', vs ++ [q]) :: rest else (k', vs) :: pushGroup rest k q

/-- `if (!grouped[key]) grouped[key] = []` — an object insert preserving
insertion order (an empty array is truthy, so only a missing key inserts). -/
def ensureGroup (gs : List (String × List ℚ)) (k : String) : List (String × List ℚ) :=
  if (gs.lookup k).isSome then gs else gs ++ [(k, [])]

/-- One row's contribution to the `grouped` record: make sure the key
exists, then push the coerced value unless it is NaN. -/
def addToGroups (gs : List (String × List ℚ)) (k : String) (v : Option ℚ) :
    List (String × List ℚ) :=
  let gs1 := ensureGroup gs k
  match v with
  | none => gs1
  | some q => pushGroup gs1 k q

/-- One named, aggregated chart point. -/
structure AggEntry where
  name : String
  value : JsNum
deriving DecidableEq, Repr

/-- `aggregateData` from excel-parser.ts: group rows by
`String(row[groupBy] || 'Unknown')`, collect the numeric-coercible values of
`aggregateColumn` per group (dropping NaN), reduce by the chosen operation,
round to 2 decimals, sort descending by value and keep the top 10. -/
def aggregateData (data : List Row) (groupBy aggregateColumn : String)
    (aggregationType : AggOp) : List AggEntry :=
  let grouped := data.foldl
    (fun g r =>
      addToGroups g (jsGroupKey (getCell r groupBy))
        (jsToNumber (getCell r aggregateColumn)))
    []
  let mapped := grouped.map
    (fun p => AggEntry.mk p.1 (jsRound2 (reduceOp aggregationType p.2)))
  (jsSort (fun y x => jsPosi (jsSub x.value y.value)) mapped).take 10

/-- The group key as the amended claim words it: a row whose groupBy cell is
null, undefined, `0`, `false` or `""` is grouped under `"Unknown"`; every
other value is grouped under its own string form. -/
def specGroupKey : Val → String
  | .vNull => "Unknown"
  | .vUndefined => "Unknown"
  | .vBool b => if b then jsToString (.vBool b) else "Unknown"
  | .vStr s => if s = "" then "Unknown" else jsToString (.vStr s)
  | .vNum q => if q = 0 then "Unknown" else jsToString (.vNum q)
  | .vDate ms => jsToString (.vDate ms)

/-- `aggregateData` as the amended claim describes it, differing from the
source translation only in how the group key is worded. -/
def specAggregateData (data : List Row) (groupBy aggregateColumn : String)
    (aggregationType : AggOp) : List AggEntry :=
  let grouped := data.foldl
    (fun g r =>
      addToGroups g (specGroupKey (getCell r groupBy))
        (jsToNumber (getCell r aggregateColumn)))
    []
  let mapped := grouped.map
    (fun p => AggEntry.mk p.1 (jsRound2 (reduceOp aggregationType p.2)))
  (jsSort (fun y x => jsPosi (jsSub x.value y.value)) mapped).take 10

/-! ## Column statistics engine (`profileColumn`, data-profiling.ts) -/

/-- Cardinality classes. -/
inductive Cardinality where
  | low
  | medium
  | high
  | unique
deriving DecidableEq, Repr

/-- Skewness classes. -/
inductive Skewness where
  | left
  | symmetric
  | right
deriving DecidableEq, Repr

/-- One entry of the top-10 value distribution. -/
structure DistEntry where
  value : String
  count : ℕ
  percentage : ℚ
deriving DecidableEq, Repr

/-- One histogram bin; the source renders the two bounds into a display label
with `toFixed(1)`, which is presentational and kept here as the exact
bounds. -/
structure HistBin where
  lo : ℚ
  hi : ℚ
  count : ℕ
deriving DecidableEq, Repr

/-- The quartile triple. -/
structure Quartiles where
  q1 : ℚ
  q2 : ℚ
  q3 : ℚ
deriving DecidableEq, Repr

/-- The `ColumnProfile` record of data-profiling.ts.  `stdDev` is carried as
its square `variance?` so the profile stays rational; the only consumer
inside the engine is the skewness test, which is expressed equivalently on
squares below. -/
structure ColumnProfile where
  name : String
  type : ColType
  totalCount : ℕ
  uniqueCount : ℕ
  nullCount : ℕ
  nullPercentage : ℚ
  cardinality : Cardinality
  distribution : List DistEntry
  mean? : Option ℚ := none
  median? : Option ℚ := none
  variance? : Option ℚ := none
  min? : Option ℚ := none
  max? : Option ℚ := none
  range? : Option ℚ := none
  quartiles? : Option Quartiles := none
  skewness? : Option Skewness := none
  histogram? : Option (List HistBin) := none
deriving DecidableEq, Repr

/-- `getCardinality` from data-profiling.ts.  (`0/0` is `0` here where
JavaScript gets NaN; every comparison in the cascade is false either way, so
both give `low`.) -/
def getCardinality (uniqueCount totalCount : ℕ) : Cardinality :=
  let ratio : ℚ := (uniqueCount : ℚ) / totalCount
  if ratio = 1 then .unique
  else if ratio > 0.5 then .high
  else if ratio > 0.1 then .medium
  else .low

/-- `calculateMedian` from data-profiling.ts, on an already sorted list. -/
def calculateMedian (sorted : List ℚ) : ℚ :=
  let mid := sorted.length / 2
  if sorted.length % 2 ≠ 0 then sorted.getD mid 0
  else (sorted.getD (mid - 1) 0 + sorted.getD mid 0) / 2

/-- Population variance (the square of `calculateStdDev`). -/
def listVariance (values : List ℚ) (mean : ℚ) : ℚ :=
  listSum (values.map (fun v => (v - mean) ^ 2)) / values.length

/-- The skewness classification
`mean < median - stdDev*0.2 → left; mean > median + stdDev*0.2 → right`,
expressed on squares: for `d := median - mean`, `d > 0.2·√variance` iff
`d > 0` and `d² > 0.04·variance` (both sides of the original comparison are
then nonnegative, and squaring is strictly monotone there). -/
def skewOf (mean median variance : ℚ) : Skewness :=
  if median - mean > 0 ∧ (median - mean) ^ 2 > 0.04 * variance then .left
  else if mean - median > 0 ∧ (mean - median) ^ 2 > 0.04 * variance then .right
  else .symmetric

/-- `Math.ceil(Math.sqrt(n))` for a natural `n`: the least `k` with
`n ≤ k²`. -/
def ceilSqrtNat (n : ℕ) : ℕ :=
  ((List.range (n + 1)).find? (fun k => decide (n ≤ k * k))).getD n

/-- `a -. b` sort: ascending numeric comparator `(a, b) => a - b`. -/
def sortedAsc (l : List ℚ) : List ℚ :=
  jsSort (fun y x => decide (y > x)) l

/-- One `bins[binIndex]++` step of the histogram loop.  With `binWidth = 0`
(all numeric values equal, range 0) JavaScript computes the bin index as
`(v - min)/0 = 0/0 = NaN` and `bins[NaN]++` touches a phantom property, so
no bin is incremented; otherwise the index is
`Math.min(binCount - 1, Math.floor((v - min)/binWidth))`.  (A negative index
would likewise touch a phantom property; it cannot arise for a column whose
`min` summary comes from the same values.) -/
def histAssign (bins : List ℕ) (v minV binWidth : ℚ) (binCount : ℕ) : List ℕ :=
  if binWidth = 0 then bins
  else
    let idx := min ((binCount : ℤ) - 1) ⌊(v - minV) / binWidth⌋
    if idx < 0 then bins else bins.set idx.toNat (bins.getD idx.toNat 0 + 1)

/-- The histogram of `profileColumn`: `min(10, ceil(sqrt n))` equal-width
bins spanning `[min, max]`. -/
def buildHistogram (numericValues : List ℚ) (minV range : ℚ) : List HistBin :=
  let binCount := min 10 (ceilSqrtNat numericValues.length)
  let binWidth := range / binCount
  let bins := numericValues.foldl
    (fun bs v => histAssign bs v minV binWidth binCount)
    (List.replicate binCount 0)
  bins.mapIdx (fun i count =>
    { lo := minV + i * binWidth, hi := minV + (i + 1) * binWidth, count := count })

/-- The top-10 value distribution: count `String(v)` frequencies over the
non-null values in first-seen order, display-truncate long keys, take
percentages of the total row count, sort descending by count, keep 10. -/
def buildDistribution (values : List Val) : List DistEntry :=
  let nonNull := values.filter keepVal
  let counts := nonNull.foldl
    (fun m v =>
      let key := jsToString v
      match m.lookup key with
      | some _ => m.map (fun p => if p.1 = key then (p.1, p.2 + 1) else p)
      | none => m ++ [(key, 1)])
    ([] : List (String × ℕ))
  let entries := counts.map (fun p =>
    ({ value := if p.1.data.length > 30 then ⟨p.1.data.take 30⟩ ++ "..." else p.1,
       count := p.2,
       percentage := (p.2 : ℚ) / values.length * 100 } : DistEntry))
  (jsSort (fun y x => decide (x.count > y.count)) entries).take 10

/-- `profileColumn` from data-profiling.ts. -/
def profileColumn (col : ColumnInfo) (values : List Val) : ColumnProfile :=
  let nonNull := values.filter keepVal
  let base : ColumnProfile :=
    { name := col.name, type := col.type, totalCount := values.length,
      uniqueCount := col.uniqueValues, nullCount := col.nullCount,
      nullPercentage := ((values.length : ℚ) - nonNull.length) / values.length * 100,
      cardinality := getCardinality col.uniqueValues values.length,
      distribution := buildDistribution values }
  if col.type = .number then
    let numericValues := nonNull.filterMap jsToNumber
    if numericValues.isEmpty then base
    else
      let sorted := sortedAsc numericValues
      let mean := listSum numericValues / numericValues.length
      let median := calculateMedian sorted
      let variance := listVariance numericValues mean
      let minV := (col.min?).getD 0
      let range := (col.max?).getD 0 - minV
      { base with
        mean? := some mean, median? := some median, variance? := some variance,
        min? := col.min?, max? := col.max?, range? := some range,
        quartiles? := some
          { q1 := sorted.getD (⌊(sorted.length : ℚ) * 0.25⌋).toNat 0,
            q2 := median,
            q3 := sorted.getD (⌊(sorted.length : ℚ) * 0.75⌋).toNat 0 },
        skewness? := some (skewOf mean median variance),
        histogram? := some (buildHistogram numericValues minV range) }
  else base

/-! ## Correlation engine (data-profiling.ts) -/

/-- Correlation strength classes. -/
inductive Strength where
  | none
  | weak
  | moderate
  | strong
  | very_strong
deriving DecidableEq, Repr

/-- Mean of the first `n` entries (`x.slice(0, n).reduce(..)/n`). -/
noncomputable def pearsonMean (x : List ℚ) (n : ℕ) : ℝ :=
  (∑ i in Finset.range n, ((x.getD i 0 : ℚ) : ℝ)) / n

/-- The accumulated numerator `Σ (xᵢ - x̄)(yᵢ - ȳ)` of the correlation
loop. -/
noncomputable def pearsonNum (x y : List ℚ) (n : ℕ) : ℝ :=
  ∑ i in Finset.range n,
    (((x.getD i 0 : ℚ) : ℝ) - pearsonMean x n) * (((y.getD i 0 : ℚ) : ℝ) - pearsonMean y n)

/-- The accumulated denominator summand `Σ (xᵢ - x̄)²`. -/
noncomputable def pearsonDenom (x : List ℚ) (n : ℕ) : ℝ :=
  ∑ i in Finset.range n, (((x.getD i 0 : ℚ) : ℝ) - pearsonMean x n) ^ 2

/-- `calculatePearsonCorrelation` from data-profiling.ts: truncate both
inputs to `n = min(len x, len y)`, return 0 when `n < 3` or when the
denominator `sqrt(Σ(xᵢ-x̄)²·Σ(yᵢ-ȳ)²)` is 0. -/
noncomputable def calculatePearsonCorrelation (x y : List ℚ) : ℝ :=
  let n := min x.length y.length
  if n < 3 then 0
  else
    let denominator := Real.sqrt (pearsonDenom x n * pearsonDenom y n)
    if denominator = 0 then 0 else pearsonNum x y n / denominator

/-- `getCorrelationStrength` from data-profiling.ts. -/
noncomputable def getCorrelationStrength (r : ℝ) : Strength :=
  if |r| < 0.1 then .none
  else if |r| < 0.3 then .weak
  else if |r| < 0.5 then .moderate
  else if |r| < 0.7 then .strong
  else .very_strong

/-- One correlation result. -/
structure CorrPair where
  column1 : String
  column2 : String
  correlation : ℝ
  strength : Strength

/-- `rows.map(row => Number(row[name])).filter(v => !isNaN(v))` — the
independent non-NaN filtering of one column. -/
def numValuesOf (rows : List Row) (name : String) : List ℚ :=
  rows.filterMap (fun r => jsToNumber (getCell r name))

/-- The ordered pairs `(i, j)`, `i < j`, in the nested-loop order of
`generateDataProfile`. -/
def orderedPairs : List α → List (α × α)
  | [] => []
  | x :: xs => xs.map (fun y => (x, y)) ++ orderedPairs xs

/-- The correlation list built by `generateDataProfile` (before its final
presentation sort): for every ordered pair of distinct numeric columns, if
both independently filtered value lists have at least 3 entries, push the
Pearson correlation rounded to 3 decimals together with the strength of the
unrounded value. -/
noncomputable def generateCorrelations (sheet : ParsedData) : List CorrPair :=
  let numericColumns := sheet.columns.filter (fun c => c.type == ColType.number)
  (orderedPairs numericColumns).filterMap (fun p =>
    let values1 := numValuesOf sheet.rows p.1.name
    let values2 := numValuesOf sheet.rows p.2.name
    if 3 ≤ values1.length ∧ 3 ≤ values2.length then
      let correlation := calculatePearsonCorrelation values1 values2
      some { column1 := p.1.name, column2 := p.2.name,
             correlation := ((round (correlation * 1000) : ℤ) : ℝ) / 1000,
             strength := getCorrelationStrength correlation }
    else Option.none)

/-- Pearson's r as the claim words it:
`r = Σ(xᵢ−x̄)(yᵢ−ȳ) / sqrt(Σ(xᵢ−x̄)²·Σ(yᵢ−ȳ)²)` over the first
`n = min(len x, len y)` entries of the two sequences, with no further
guards. -/
noncomputable def specPearson (x y : List ℚ) : ℝ :=
  let n := min x.length y.length
  pearsonNum x y n / Real.sqrt (pearsonDenom x n * pearsonDenom y n)

/-- The strength classification as the claim words it, by half-open
intervals of `|r|`: none `< 0.1`, weak `[0.1, 0.3)`, moderate `[0.3, 0.5)`,
strong `[0.5, 0.7)`, very_strong `≥ 0.7`. -/
noncomputable def specStrength (r : ℝ) : Strength :=
  if |r| < 0.1 then .none
  else if 0.1 ≤ |r| ∧ |r| < 0.3 then .weak
  else if 0.3 ≤ |r| ∧ |r| < 0.5 then .moderate
  else if 0.5 ≤ |r| ∧ |r| < 0.7 then .strong
  else .very_strong

/-- The correlation list as the claim describes it: a pair is produced for
an ordered pair of distinct numeric columns exactly when both independently
filtered sequences keep at least 3 non-NaN values; its correlation is the
bare Pearson formula over the first `min` entries, rounded to 3 decimals,
and its strength classifies `|r|` by the interval table. -/
noncomputable def specCorrelations (sheet : ParsedData) : List CorrPair :=
  let numericColumns := sheet.columns.filter (fun c => c.type == ColType.number)
  (orderedPairs numericColumns).filterMap (fun p =>
    let values1 := numValuesOf sheet.rows p.1.name
    let values2 := numValuesOf sheet.rows p.2.name
    if 3 ≤ values1.length ∧ 3 ≤ values2.length then
      let r := specPearson values1 values2
      some { column1 := p.1.name, column2 := p.2.name,
             correlation := ((round (r * 1000) : ℤ) : ℝ) / 1000,
             strength := specStrength r }
    else Option.none)

/-! ## Data quality engine (data-quality.ts) -/

/-- Issue categories. -/
inductive IssueType where
  | missing
  | outlier
  | duplicate
  | mixed_type
  | inconsistent
deriving DecidableEq, Repr

/-- Severity levels. -/
inductive Severity where
  | low
  | medium
  | high
  | critical
deriving DecidableEq, Repr

/-- A data-quality issue.  The free-text `message`/`details`/`suggestion`
fields and the running `id` counter are presentational and not modelled. -/
structure QIssue where
  type : IssueType
  column : Option String
  severity : Severity
  affectedRows : ℕ
  percentage : ℚ
deriving DecidableEq, Repr

/-- `detectOutliers` from data-quality.ts: needs at least 4 values; Q1 and
Q3 are the sorted entries at indices `floor(n·0.25)` and `floor(n·0.75)`;
an outlier lies strictly outside `[Q1 − 1.5·IQR, Q3 + 1.5·IQR]`. -/
def detectOutliers (values : List ℚ) : List ℚ × ℕ :=
  if values.length < 4 then ([], 0)
  else
    let sorted := sortedAsc values
    let q1 := sorted.getD (⌊(sorted.length : ℚ) * 0.25⌋).toNat 0
    let q3 := sorted.getD (⌊(sorted.length : ℚ) * 0.75⌋).toNat 0
    let iqr := q3 - q1
    let lowerBound := q1 - 1.5 * iqr
    let upperBound := q3 + 1.5 * iqr
    let outliers := values.filter (fun v => v < lowerBound || v > upperBound)
    (outliers, outliers.length)

/-- The per-value classes of `detectMixedTypes`. -/
inductive MixedTy where
  | number
  | boolean
  | date
  | string
deriving DecidableEq, Repr

/-- One value's class in `detectMixedTypes`; `Option.none` for the skipped
null/undefined/empty-string values.  The `number` test is
`!isNaN(Number(v)) && typeof v !== 'boolean'` (so a Date, whose numeric
coercion is its timestamp, lands in `number`); the `date` test is only ever
reached on strings, where it is `parseable && (includes '/' ||
includes '-')`. -/
def classifyForMixed : Val → Option MixedTy
  | .vNull => none
  | .vUndefined => none
  | .vStr "" => none
  | .vBool _ => some .boolean
  | .vNum _ => some .number
  | .vDate _ => some .number
  | .vStr s =>
    if (jsStrToNum s).isSome then some .number
    else if s = "true" || s = "false" then some .boolean
    else if jsDateParseable s && (strContains s '/' || strContains s '-') then some .date
    else some .string

/-- `detectMixedTypes` from data-quality.ts: the set of per-value classes,
mixed iff more than one class occurs. -/
def detectMixedTypes (values : List Val) : Bool × List MixedTy :=
  let types := (values.filterMap classifyForMixed).dedup
  (types.length > 1, types)

/-- `findDuplicates` from data-quality.ts: serialize each row (modelled by
the row's own field list — rows parsed from one sheet share the key order)
and count every occurrence beyond a key's first, plus the number of groups
of size > 1. -/
def findDuplicates (rows : List Row) : ℕ × ℕ :=
  let step : List (Row × ℕ) × ℕ → Row → List (Row × ℕ) × ℕ := fun (seen, dups) r =>
    let count := (seen.lookup r).getD 0
    let seen1 :=
      if (seen.lookup r).isSome then
        seen.map (fun p => if p.1 == r then (p.1, count + 1) else p)
      else seen ++ [(r, count + 1)]
    (seen1, if count > 0 then dups + 1 else dups)
  let (seen, duplicateRows) := rows.foldl step ([], 0)
  (duplicateRows, ((seen.map Prod.snd).filter (fun c => c > 1)).length)

/-- The severity cascade of the missing-values issue. -/
def missingSeverity (pct : ℚ) : Severity :=
  if pct > 50 then .critical else if pct > 25 then .high
  else if pct > 10 then .medium else .low

/-- The severity cascade of the outlier issue. -/
def outlierSeverity (pct : ℚ) : Severity :=
  if pct > 15 then .high else if pct > 5 then .medium else .low

/-- The severity cascade of the duplicate-rows issue. -/
def duplicateSeverity (pct : ℚ) : Severity :=
  if pct > 20 then .high else if pct > 10 then .medium else .low

/-- The missing-values check for one column (data-quality.ts lines 87-111):
the issue is pushed, and `min(missingPct, 50)` deducted, only inside the
`missingPercentage > 5` branch. -/
def missingPart (col : ColumnInfo) (rowCount : ℕ) : List QIssue × ℚ :=
  let missingPercentage := (col.nullCount : ℚ) / rowCount * 100
  if missingPercentage > 0 then
    if missingPercentage > 5 then
      ([{ type := .missing, column := some col.name,
          severity := missingSeverity missingPercentage,
          affectedRows := col.nullCount, percentage := missingPercentage }],
       min missingPercentage 50)
    else ([], 0)
  else ([], 0)

/-- The numeric values a column contributes to outlier detection:
`values.filter(v => v !== null && !isNaN(Number(v))).map(Number)`. -/
def quNumericValues (values : List Val) : List ℚ :=
  values.filterMap (fun v => if v = .vNull then none else jsToNumber v)

/-- The outlier check for one column (data-quality.ts lines 113-137),
applied only to `number` columns; the issue is pushed and
`min(outlierPct·2, 30)` deducted only when the outlier percentage exceeds
1. -/
def outlierPart (col : ColumnInfo) (values : List Val) : List QIssue × ℚ :=
  if col.type = .number then
    let numericValues := quNumericValues values
    let outlierCount := (detectOutliers numericValues).2
    let outlierPercentage := (outlierCount : ℚ) / numericValues.length * 100
    if outlierPercentage > 1 then
      ([{ type := .outlier, column := some col.name,
          severity := outlierSeverity outlierPercentage,
          affectedRows := outlierCount, percentage := outlierPercentage }],
       min (outlierPercentage * 2) 30)
    else ([], 0)
  else ([], 0)

/-- The mixed-type check for one column (data-quality.ts lines 139-154): a
flat medium-severity issue covering the whole dataset and a flat deduction
of 20. -/
def mixedPart (col : ColumnInfo) (values : List Val) (rowCount : ℕ) : List QIssue × ℚ :=
  if (detectMixedTypes values).1 then
    ([{ type := .mixed_type, column := some col.name, severity := .medium,
        affectedRows := rowCount, percentage := 100 }], 20)
  else ([], 0)

/-- One column's pass of the `analyzeDataQuality` loop: the issues it
pushes, in push order, and its health score before rounding. -/
def columnQuality (col : ColumnInfo) (values : List Val) (rowCount : ℕ) :
    List QIssue × ℚ :=
  let m := missingPart col rowCount
  let o := outlierPart col values
  let x := mixedPart col values rowCount
  (m.1 ++ o.1 ++ x.1, 100 - m.2 - o.2 - x.2)

/-- `columnHealth[name] = value` — object assignment preserving insertion
order. -/
def assocSet (m : List (String × ℤ)) (k : String) (v : ℤ) : List (String × ℤ) :=
  if (m.lookup k).isSome then m.map (fun p => if p.1 = k then (k, v) else p)
  else m ++ [(k, v)]

/-- The sort rank `{critical: 0, high: 1, medium: 2, low: 3}`. -/
def severityRank : Severity → ℕ
  | .critical => 0
  | .high => 1
  | .medium => 2
  | .low => 3

/-- The `DataQualityReport` of data-quality.ts. -/
structure QReport where
  overallScore : ℤ
  issues : List QIssue
  totalIssues : ℕ
  criticalCount : ℕ
  highCount : ℕ
  mediumCount : ℕ
  lowCount : ℕ
  columnHealth : List (String × ℤ)
deriving DecidableEq, Repr

/-- `analyzeDataQuality` from data-quality.ts. -/
def analyzeDataQuality (sheet : ParsedData) : QReport :=
  let rowCount := sheet.rows.length
  let perCol := sheet.columns.map (fun col =>
    (col, columnQuality col (cellsOf sheet.rows col.name) rowCount))
  let columnIssues := (perCol.map (fun p => p.2.1)).flatten
  let columnHealth := perCol.foldl
    (fun m p => assocSet m p.1.name (max 0 (round p.2.2))) []
  let dup := findDuplicates sheet.rows
  let dupIssues : List QIssue :=
    if dup.1 > 0 then
      let duplicatePercentage := (dup.1 : ℚ) / rowCount * 100
      [{ type := .duplicate, column := none,
         severity := duplicateSeverity duplicatePercentage,
         affectedRows := dup.1, percentage := duplicatePercentage }]
    else []
  let issues := jsSort
    (fun y x => decide (severityRank y.severity > severityRank x.severity))
    (columnIssues ++ dupIssues)
  let avgColumnHealth : ℚ :=
    ((columnHealth.map Prod.snd).sum : ℤ) / (columnHealth.length : ℚ)
  let issuesPenalty : ℚ := min ((issues.length : ℚ) * 5) 30
  { overallScore := max 0 (round (avgColumnHealth - issuesPenalty)),
    issues := issues,
    totalIssues := issues.length,
    criticalCount := (issues.filter (fun i => i.severity == .critical)).length,
    highCount := (issues.filter (fun i => i.severity == .high)).length,
    mediumCount := (issues.filter (fun i => i.severity == .medium)).length,
    lowCount := (issues.filter (fun i => i.severity == .low)).length,
    columnHealth := columnHealth }

/-! ## Concrete datasets used by the scenario theorems -/

/-- The numeric column of the outlier scenario: `[1, 1, 1, 1, 100]`. -/
def valsC6 : List Val := [.vNum 1, .vNum 1, .vNum 1, .vNum 1, .vNum 100]

/-- The outlier-scenario sheet: one column `v` holding `[1, 1, 1, 1, 100]`. -/
def sheetC6 : ParsedData :=
  { rows := valsC6.map (fun v => [("v", v)]),
    columns := [⟨"v", .number, 2, 0, some 1, some 100, some 104, some (104 / 5)⟩] }

/-- Twenty rows over one string column `c`: six copies of `"a"` (five
duplicates beyond the first) and fourteen distinct values. -/
def rowsC7 : List Row :=
  List.replicate 6 [("c", Val.vStr "a")] ++
    (List.range 14).map (fun k => [("c", Val.vStr ("b" ++ toString k))])

/-- The duplicate-scenario sheet. -/
def sheetC7 : ParsedData :=
  { rows := rowsC7, columns := [⟨"c", .string, 15, 0, none, none, none, none⟩] }

/-- A minimal healthy sheet: one numeric column, one row. -/
def sheetOne : ParsedData :=
  { rows := [[("a", Val.vNum 1)]],
    columns := [⟨"a", .number, 1, 0, some 1, some 1, some 1, some 1⟩] }

/-! ## General lemmas about the sort and the quality parts -/

theorem insertAsc_perm (gt : α → α → Bool) (x : α) (l : List α) :
    (insertAsc gt x l).Perm (x :: l) := by
  induction l with
  | nil => exact List.Perm.refl _
  | cons y ys ih =>
    unfold insertAsc
    split
    · exact List.Perm.refl _
    · exact ((ih.cons y).trans (List.Perm.swap x y ys))

theorem foldl_insertAsc_perm (gt : α → α → Bool) (l acc : List α) :
    (l.foldl (fun a x => insertAsc gt x a) acc).Perm (acc ++ l) := by
  induction l generalizing acc with
  | nil => simp
  | cons x xs ih =>
    rw [List.foldl_cons]
    refine (ih (insertAsc gt x acc)).trans ?_
    exact ((insertAsc_perm gt x acc).append_right xs).trans List.perm_middle.symm

/-- The `jsSort` model permutes its input. -/
theorem jsSort_perm (gt : α → α → Bool) (l : List α) : (jsSort gt l).Perm l := by
  simpa using foldl_insertAsc_perm gt l []

theorem missingPart_filter (col : ColumnInfo) (n : ℕ) (t : IssueType)
    (ht : t ≠ .missing) :
    (missingPart col n).1.filter (fun i => i.type == t) = [] := by
  unfold missingPart
  dsimp only
  split_ifs <;> simp [List.filter, beq_eq_false_iff_ne.mpr (Ne.symm ht)]

theorem outlierPart_filter (col : ColumnInfo) (values : List Val) (t : IssueType)
    (ht : t ≠ .outlier) :
    (outlierPart col values).1.filter (fun i => i.type == t) = [] := by
  unfold outlierPart
  dsimp only
  split_ifs <;> simp [List.filter, beq_eq_false_iff_ne.mpr (Ne.symm ht)]

theorem mixedPart_filter (col : ColumnInfo) (values : List Val) (n : ℕ)
    (t : IssueType) (ht : t ≠ .mixed_type) :
    (mixedPart col values n).1.filter (fun i => i.type == t) = [] := by
  unfold mixedPart
  split_ifs <;> simp [List.filter, beq_eq_false_iff_ne.mpr (Ne.symm ht)]

/-- No per-column check ever pushes a `duplicate` issue. -/
theorem columnQuality_filter_duplicate (col : ColumnInfo) (values : List Val) (n : ℕ) :
    (columnQuality col values n).1.filter (fun i => i.type == IssueType.duplicate) = [] := by
  unfold columnQuality
  dsimp only
  rw [List.filter_append, List.filter_append,
    missingPart_filter col n IssueType.duplicate (by decide),
    outlierPart_filter col values IssueType.duplicate (by decide),
    mixedPart_filter col values n IssueType.duplicate (by decide)]
  rfl

/-- The accumulated numerator is symmetric in the two sequences. -/
theorem pearsonNum_comm (x y : List ℚ) (n : ℕ) :
    pearsonNum x y n = pearsonNum y x n := by
  unfold pearsonNum
  exact Finset.sum_congr rfl (fun i _ => mul_comm _ _)

/-- Under the caller's guard (`≥ 3` values on both sides) the guarded source
correlation agrees with the bare formula of the specification. -/
theorem calculatePearson_eq_spec (x y : List ℚ)
    (hx : 3 ≤ x.length) (hy : 3 ≤ y.length) :
    calculatePearsonCorrelation x y = specPearson x y := by
  unfold calculatePearsonCorrelation specPearson
  have hn : ¬ (min x.length y.length < 3) :=
    Nat.not_lt.mpr (le_min hx hy)
  by_cases hd :
      Real.sqrt (pearsonDenom x (min x.length y.length) *
        pearsonDenom y (min x.length y.length)) = 0
  · simp [hn, hd, div_zero]
  · simp [hn, hd]

/-- The two strength cascades coincide. -/
theorem getCorrelationStrength_eq_spec (r : ℝ) :
    getCorrelationStrength r = specStrength r := by
  unfold getCorrelationStrength specStrength
  by_cases h1 : |r| < 0.1
  · simp [h1]
  · by_cases h2 : |r| < 0.3
    · simp [h1, h2, not_lt.mp h1]
    · by_cases h3 : |r| < 0.5
      · simp [h1, h2, h3, not_lt.mp h2]
      · by_cases h4 : |r| < 0.7
        · simp [h1, h2, h3, h4, not_lt.mp h3]
        · simp [h1, h2, h3, h4]

/-! ## The claims -/

/-- C9: the Pearson correlation computation is symmetric in its two
arguments, including the truncation of both inputs to
`n = min(length x, length y)` entries. -/
theorem pearson_correlation_symmetric (x y : List ℚ) :
    calculatePearsonCorrelation x y = calculatePearsonCorrelation y x := by
  unfold calculatePearsonCorrelation
  dsimp only
  rw [Nat.min_comm y.length x.length, pearsonNum_comm y x,
    mul_comm (pearsonDenom y (min x.length y.length))
      (pearsonDenom x (min x.length y.length))]

/-- C2: the correlation list of `generateDataProfile` is exactly the list
the specification describes — one pair per unordered pair of distinct
numeric columns, produced iff both independently filtered sequences keep at
least 3 non-NaN values, carrying Pearson's r over the first
`min(len, len)` entries rounded to 3 decimals and the strength class of
`|r|`. -/
theorem correlations_match_spec (sheet : ParsedData) :
    generateCorrelations sheet = specCorrelations sheet := by
  unfold generateCorrelations specCorrelations
  dsimp only
  congr 1
  funext p
  dsimp only
  by_cases h : 3 ≤ (numValuesOf sheet.rows p.1.name).length ∧
      3 ≤ (numValuesOf sheet.rows p.2.name).length
  · rw [if_pos h, if_pos h,
      calculatePearson_eq_spec _ _ h.1 h.2, getCorrelationStrength_eq_spec]
  · rw [if_neg h, if_neg h]

/-- C1 counterexample: on `["1", "2", "3", "4", "x"]` the number predicate
holds for exactly 4 of the 5 non-null values — a fraction of exactly 80%,
which reaches the claimed `≥ 0.8` threshold — yet `detectColumnType` answers
`string`, not `number`, because the source compares with a strict `> 0.8`. -/
theorem detect_type_eighty_percent_cx :
    detectColumnType [.vStr "1", .vStr "2", .vStr "3", .vStr "4", .vStr "x"]
        = .ok .string ∧
    (([Val.vStr "1", .vStr "2", .vStr "3", .vStr "4", .vStr "x"].filter
        keepVal).filter isNumLike).length = 4 ∧
    ([Val.vStr "1", .vStr "2", .vStr "3", .vStr "4", .vStr "x"].filter
        keepVal).length = 5 ∧
    (0.8 : ℚ) ≤ (4 : ℚ) / 5 ∧
    ColType.string ≠ ColType.number := by
  refine ⟨?_, by decide, by decide, by norm_num, by decide⟩
  unfold detectColumnType
  rw [show [Val.vStr "1", .vStr "2", .vStr "3", .vStr "4", .vStr "x"].filter keepVal
      = [Val.vStr "1", .vStr "2", .vStr "3", .vStr "4", .vStr "x"] from by decide]
  dsimp only
  rw [show [Val.vStr "1", .vStr "2", .vStr "3", .vStr "4", .vStr "x"].filter isBoolLike
      = [] from by decide]
  rw [show [Val.vStr "1", .vStr "2", .vStr "3", .vStr "4", .vStr "x"].filter isNumLike
      = [Val.vStr "1", .vStr "2", .vStr "3", .vStr "4"] from by decide]
  rw [show countDateLike [Val.vStr "1", .vStr "2", .vStr "3", .vStr "4", .vStr "x"]
      = .ok 0 from rfl]
  norm_num

/-- C1 (amended): type inference filters out null/undefined/empty-string
values, returns `string` when none remain, and otherwise the first of the
predicates boolean, number, date whose fraction of the non-null values
STRICTLY exceeds 80% (`> 0.8`) determines the type, falling through to
`string` (with the date predicate's TypeError on non-string, non-Date
values propagating on both sides). -/
theorem detect_type_matches_spec (values : List Val) :
    detectColumnType values = detectColumnTypeSpec values := by
  unfold detectColumnType detectColumnTypeSpec
  dsimp only
  by_cases h : values.filter keepVal = []
  · simp [h]
  · simp [h, List.length_eq_zero]

/-- C3 counterexample: a row whose groupBy value is the number `0` is
grouped under `"Unknown"`, not under its own string form `"0"`, because the
source tests `row[groupBy] || 'Unknown'` (truthiness), not `?? 'Unknown'`
(nullishness). -/
theorem aggregate_zero_key_cx :
    aggregateData [[("G", Val.vNum 0), ("V", Val.vNum 5)]] "G" "V" .sum
      = [⟨"Unknown", .num 5⟩] ∧
    jsToString (Val.vNum 0) = "0" ∧ ("Unknown" : String) ≠ "0" := by
  refine ⟨?_, by decide, by decide⟩
  unfold aggregateData
  dsimp only
  rw [List.foldl_cons, List.foldl_nil]
  rw [show getCell [("G", Val.vNum 0), ("V", Val.vNum 5)] "G" = Val.vNum 0 from rfl,
    show getCell [("G", Val.vNum 0), ("V", Val.vNum 5)] "V" = Val.vNum 5 from rfl,
    show jsGroupKey (Val.vNum 0) = "Unknown" from rfl,
    show jsToNumber (Val.vNum 5) = some 5 from rfl,
    show addToGroups [] "Unknown" (some 5) = [("Unknown", [5])] from rfl]
  norm_num [reduceOp, listSum, jsRound2, jsSort, insertAsc, round_eq]

/-- C3 (amended): the aggregation engine's group key is `"Unknown"` for any
FALSY groupBy value — null, undefined, and also `0`, `false` and the empty
string — and every truthy value is grouped under its own string form; per
group the numeric-coercible values of the value column are collected (NaN
dropped), reduced by the chosen op, rounded to 2 decimals, sorted descending
by value, and truncated to the top 10 groups. -/
theorem aggregate_matches_spec_falsy (data : List Row) (g a : String) (op : AggOp) :
    aggregateData data g a op = specAggregateData data g a op := by
  have hkey : specGroupKey = jsGroupKey := by
    funext v
    cases v with
    | vNull => rfl
    | vUndefined => rfl
    | vBool b => cases b <;> rfl
    | vStr s =>
      by_cases hs : s = ""
      · subst hs; rfl
      · simp [specGroupKey, jsGroupKey, truthy, hs]
    | vNum q =>
      by_cases hq : q = 0
      · subst hq; rfl
      · simp [specGroupKey, jsGroupKey, truthy, hq]
    | vDate ms => rfl
  unfold aggregateData specAggregateData
  rw [hkey]

/-- C4 refuted (code bug): for the all-equal numeric column `[5, 5, 5]`
(range 0, hence binWidth 0) the histogram `profileColumn` returns has every
bin count 0 — the JavaScript bin index `0/0` is the unguarded NaN, so all
three values are lost, instead of being counted in bin 0 as the claim
requires. -/
theorem degenerate_histogram_loses_counts :
    analyzeColumn "v" [Val.vNum 5, .vNum 5, .vNum 5]
      = .ok ⟨"v", .number, 1, 0, some 5, some 5, some 15, some 5⟩ ∧
    (profileColumn ⟨"v", .number, 1, 0, some 5, some 5, some 15, some 5⟩
        [Val.vNum 5, .vNum 5, .vNum 5]).histogram?
      = some [⟨5, 5, 0⟩, ⟨5, 5, 0⟩] ∧
    (([⟨5, 5, 0⟩, ⟨5, 5, 0⟩] : List HistBin).map HistBin.count).sum = 0 ∧
    ([Val.vNum 5, .vNum 5, .vNum 5].filter keepVal).length = 3 := by
  have hdt : detectColumnType [Val.vNum 5, .vNum 5, .vNum 5] = .ok .number := by
    unfold detectColumnType
    rw [show [Val.vNum 5, .vNum 5, .vNum 5].filter keepVal
        = [Val.vNum 5, .vNum 5, .vNum 5] from rfl]
    dsimp only
    rw [show [Val.vNum 5, .vNum 5, .vNum 5].filter isBoolLike = [] from rfl,
      show [Val.vNum 5, .vNum 5, .vNum 5].filter isNumLike
        = [Val.vNum 5, .vNum 5, .vNum 5] from rfl]
    norm_num
  refine ⟨?_, ?_, by decide, by decide⟩
  · unfold analyzeColumn
    rw [hdt]
    dsimp only
    rw [show ([Val.vNum 5, .vNum 5, .vNum 5].filter keepVal).filterMap jsToNumber
        = [5, 5, 5] from rfl]
    norm_num [listMin, listMax, listSum]
    decide
  · unfold profileColumn
    dsimp only
    rw [show ([Val.vNum 5, .vNum 5, .vNum 5].filter keepVal).filterMap jsToNumber
        = [5, 5, 5] from rfl]
    norm_num [buildHistogram, histAssign, ceilSqrtNat, List.mapIdx, List.range,
      List.foldl]
    decide

/-- C5: a `missing` issue is emitted for a column iff its missing
percentage `nullCount/rowCount·100` exceeds 5, with severity critical
`>50`, high `>25`, medium `>10` and low otherwise, and the column's health
score is reduced by `min(missingPct, 50)` exactly when that issue is
emitted. -/
theorem missing_issue_iff (col : ColumnInfo) (values : List Val) (n : ℕ)
    (hn : 0 < n) :
    ((columnQuality col values n).1.filter (fun i => i.type == IssueType.missing)
      = if (col.nullCount : ℚ) / n * 100 > 5 then
          [{ type := .missing, column := some col.name,
             severity :=
               if (col.nullCount : ℚ) / n * 100 > 50 then .critical
               else if (col.nullCount : ℚ) / n * 100 > 25 then .high
               else if (col.nullCount : ℚ) / n * 100 > 10 then .medium
               else .low,
             affectedRows := col.nullCount,
             percentage := (col.nullCount : ℚ) / n * 100 }]
        else []) ∧
    (columnQuality col values n).2
      = 100 - (if (col.nullCount : ℚ) / n * 100 > 5
            then min ((col.nullCount : ℚ) / n * 100) 50 else 0)
          - (outlierPart col values).2 - (mixedPart col values n).2 := by
  constructor
  · unfold columnQuality
    dsimp only
    rw [List.filter_append, List.filter_append,
      outlierPart_filter col values IssueType.missing (by decide),
      mixedPart_filter col values n IssueType.missing (by decide)]
    unfold missingPart
    dsimp only
    by_cases h5 : (col.nullCount : ℚ) / n * 100 > 5
    · have h0 : (col.nullCount : ℚ) / n * 100 > 0 := lt_trans (by norm_num) h5
      rw [if_pos h0, if_pos h5, if_pos h5]
      simp [List.filter, missingSeverity]
    · by_cases h0 : (col.nullCount : ℚ) / n * 100 > 0
      · simp only [if_pos h0, if_neg h5]
        simp
      · simp only [if_neg h0, if_neg h5]
        simp
  · unfold columnQuality
    dsimp only
    unfold missingPart
    dsimp only
    by_cases h5 : (col.nullCount : ℚ) / n * 100 > 5
    · have h0 : (col.nullCount : ℚ) / n * 100 > 0 := lt_trans (by norm_num) h5
      simp only [if_pos h0, if_pos h5]
    · by_cases h0 : (col.nullCount : ℚ) / n * 100 > 0
      · simp only [if_pos h0, if_neg h5]
      · simp only [if_neg h0, if_neg h5]

/-- C5 witness: a column with 1 null out of 10 rows (10% missing) gets one
low-severity missing issue. -/
theorem missing_issue_iff_witness :
    (columnQuality ⟨"c", .string, 9, 1, none, none, none, none⟩ [] 10).1.filter
        (fun i => i.type == IssueType.missing)
      = [{ type := .missing, column := some "c", severity := .low,
           affectedRows := 1, percentage := 10 }] := by
  have h := (missing_issue_iff ⟨"c", .string, 9, 1, none, none, none, none⟩
    [] 10 (by norm_num)).1
  rw [h]
  norm_num

/-- C10: whenever a `mixed_type` issue is emitted for a column it reports
`affectedRows` equal to the dataset's total row count and `percentage`
equal to 100, regardless of the actual type counts, and the column's score
loses exactly 20 for it. -/
theorem mixed_type_issue_flat (col : ColumnInfo) (values : List Val) (n : ℕ)
    (hm : (detectMixedTypes values).1 = true) :
    ((columnQuality col values n).1.filter (fun i => i.type == IssueType.mixed_type)
      = [{ type := .mixed_type, column := some col.name, severity := .medium,
           affectedRows := n, percentage := 100 }]) ∧
    (columnQuality col values n).2
      = 100 - (missingPart col n).2 - (outlierPart col values).2 - 20 := by
  constructor
  · unfold columnQuality
    dsimp only
    rw [List.filter_append, List.filter_append,
      missingPart_filter col n IssueType.mixed_type (by decide),
      outlierPart_filter col values IssueType.mixed_type (by decide)]
    unfold mixedPart
    rw [if_pos hm]
    simp [List.filter]
  · unfold columnQuality
    dsimp only
    unfold mixedPart
    rw [if_pos hm]

/-- C10 witness: the two-row column `[1, "abc"]` mixes number and string,
and its mixed_type issue covers both rows at 100%. -/
theorem detectOutliers_c6_concrete :
    detectOutliers [1, 1, 1, 1, 100] = ([100], 1) := by
  unfold detectOutliers
  rw [if_neg (by norm_num), show sortedAsc [1, 1, 1, 1, 100]
      = [(1 : ℚ), 1, 1, 1, 100] from by decide]
  have h1 : (⌊(([(1 : ℚ), 1, 1, 1, 100].length : ℚ)) * 0.25⌋).toNat = 1 := by
    norm_num
  have h3 : (⌊(([(1 : ℚ), 1, 1, 1, 100].length : ℚ)) * 0.75⌋).toNat = 3 := by
    norm_num
    decide
  dsimp only
  rw [h1, h3,
    show List.getD [(1 : ℚ), 1, 1, 1, 100] 1 0 = 1 from by decide,
    show List.getD [(1 : ℚ), 1, 1, 1, 100] 3 0 = 1 from by decide]
  norm_num [List.filter]

theorem columnQuality_c6 :
    columnQuality ⟨"v", .number, 2, 0, some 1, some 100, some 104, some (104 / 5)⟩
        valsC6 5
      = ([{ type := .outlier, column := some "v", severity := .high,
            affectedRows := 1, percentage := 20 }], 70) := by
  have hm : missingPart
      ⟨"v", .number, 2, 0, some 1, some 100, some 104, some (104 / 5)⟩ 5 = ([], 0) := by
    unfold missingPart
    norm_num
  have ho : outlierPart
      ⟨"v", .number, 2, 0, some 1, some 100, some 104, some (104 / 5)⟩ valsC6
      = ([{ type := .outlier, column := some "v", severity := .high,
            affectedRows := 1, percentage := 20 }], 30) := by
    unfold outlierPart
    rw [show quNumericValues valsC6 = [1, 1, 1, 1, 100] from by decide]
    dsimp only
    rw [detectOutliers_c6_concrete]
    norm_num [outlierSeverity]
  have hx : mixedPart
      ⟨"v", .number, 2, 0, some 1, some 100, some 104, some (104 / 5)⟩ valsC6 5
      = ([], 0) := by
    unfold mixedPart
    rw [show (detectMixedTypes valsC6).1 = false from by decide]
    simp
  unfold columnQuality
  rw [hm, ho, hx]
  norm_num

theorem analyzeDataQuality_c6_issues :
    (analyzeDataQuality sheetC6).issues
      = [{ type := .outlier, column := some "v", severity := .high,
           affectedRows := 1, percentage := 20 },
         { type := .duplicate, column := none, severity := .high,
           affectedRows := 3, percentage := 60 }] := by
  unfold analyzeDataQuality
  dsimp only
  rw [show sheetC6.columns
      = [⟨"v", .number, 2, 0, some 1, some 100, some 104, some (104 / 5)⟩] from rfl]
  dsimp only [List.map]
  rw [show cellsOf sheetC6.rows "v" = valsC6 from by decide,
    show sheetC6.rows.length = 5 from by decide,
    columnQuality_c6,
    show findDuplicates sheetC6.rows = (3, 1) from by decide]
  norm_num [duplicateSeverity]
  decide

/-- C6: IQR outlier detection needs at least 4 values, takes Q1 and Q3 at
sorted indices `floor(n·0.25)` and `floor(n·0.75)`, and counts values
strictly outside `[Q1 − 1.5·IQR, Q3 + 1.5·IQR]`; on the numeric column
`[1, 1, 1, 1, 100]` it flags exactly the value 100 (Q1 = Q3 = 1, IQR = 0),
giving 1 outlier at 20%, which passes the 1% reporting gate, so
`analyzeDataQuality` emits an outlier issue for the column. -/
theorem iqr_outlier_detection (vs : List ℚ) :
    (vs.length < 4 → detectOutliers vs = ([], 0)) ∧
    (4 ≤ vs.length →
      detectOutliers vs =
        (let sorted := sortedAsc vs
         let q1 := sorted.getD (⌊(sorted.length : ℚ) * 0.25⌋).toNat 0
         let q3 := sorted.getD (⌊(sorted.length : ℚ) * 0.75⌋).toNat 0
         let outliers := vs.filter (fun v =>
           v < q1 - 1.5 * (q3 - q1) || v > q3 + 1.5 * (q3 - q1))
         (outliers, outliers.length))) ∧
    detectOutliers [1, 1, 1, 1, 100] = ([100], 1) ∧
    analyzeColumn "v" valsC6
      = .ok ⟨"v", .number, 2, 0, some 1, some 100, some 104, some (104 / 5)⟩ ∧
    (analyzeDataQuality sheetC6).issues.filter
        (fun i => i.type == IssueType.outlier)
      = [{ type := .outlier, column := some "v", severity := .high,
           affectedRows := 1, percentage := 20 }] := by
  refine ⟨?_, ?_, detectOutliers_c6_concrete, ?_, ?_⟩
  · intro h
    unfold detectOutliers
    rw [if_pos h]
  · intro h
    unfold detectOutliers
    rw [if_neg (Nat.not_lt.mpr h)]
  · have hdt : detectColumnType valsC6 = .ok .number := by
      unfold detectColumnType
      rw [show valsC6.filter keepVal = valsC6 from by decide]
      dsimp only
      rw [show valsC6.filter isBoolLike = [] from by decide,
        show valsC6.filter isNumLike = valsC6 from by decide]
      norm_num [valsC6]
    unfold analyzeColumn
    rw [hdt]
    dsimp only
    rw [show (valsC6.filter keepVal).filterMap jsToNumber
        = [1, 1, 1, 1, 100] from by decide]
    norm_num [listMin, listMax, listSum]
    decide
  · rw [analyzeDataQuality_c6_issues]
    decide

theorem iqr_outlier_detection_witness :
    detectOutliers [(1 : ℚ), 2, 3] = ([], 0) ∧
    4 ≤ ([(1 : ℚ), 1, 1, 1, 100]).length ∧
    detectOutliers [1, 1, 1, 1, 100] = ([100], 1) :=
  ⟨(iqr_outlier_detection [(1 : ℚ), 2, 3]).1 (by decide), by decide,
    (iqr_outlier_detection [(1 : ℚ), 1, 1, 1, 100]).2.2.1⟩

theorem columnQuality_c7 :
    columnQuality ⟨"c", .string, 15, 0, none, none, none, none⟩
        (cellsOf rowsC7 "c") 20 = ([], 100) := by
  have hm : missingPart (⟨"c", .string, 15, 0, none, none, none, none⟩ : ColumnInfo) 20
      = ([], 0) := by
    unfold missingPart
    norm_num
  have ho : outlierPart ⟨"c", .string, 15, 0, none, none, none, none⟩
      (cellsOf rowsC7 "c") = ([], 0) := by
    unfold outlierPart
    simp
  have hx : mixedPart ⟨"c", .string, 15, 0, none, none, none, none⟩
      (cellsOf rowsC7 "c") 20 = ([], 0) := by
    unfold mixedPart
    rw [show (detectMixedTypes (cellsOf rowsC7 "c")).1 = false from by decide]
    simp
  unfold columnQuality
  rw [hm, ho, hx]
  norm_num

theorem analyzeDataQuality_c7_dup :
    (analyzeDataQuality sheetC7).issues
      = [{ type := .duplicate, column := none, severity := .high,
           affectedRows := 5, percentage := 25 }] := by
  unfold analyzeDataQuality
  dsimp only
  rw [show sheetC7.columns
      = [⟨"c", .string, 15, 0, none, none, none, none⟩] from rfl]
  dsimp only [List.map]
  rw [show sheetC7.rows.length = 20 from by decide]
  rw [show sheetC7.rows = rowsC7 from rfl, columnQuality_c7,
    show findDuplicates rowsC7 = (5, 1) from by decide]
  norm_num [duplicateSeverity]
  decide

/-- C7 counterexample: on a 20-row dataset with 5 exact duplicate rows the
one duplicate issue (no column, affectedRows 5, percentage 25) has severity
`high` — 25% exceeds the `>20%` high threshold — not `medium` as the claim
says. -/
theorem duplicate_severity_cx :
    (analyzeDataQuality sheetC7).issues.filter
        (fun i => i.type == IssueType.duplicate)
      = [{ type := .duplicate, column := none, severity := .high,
           affectedRows := 5, percentage := 25 }] ∧
    Severity.high ≠ Severity.medium := by
  refine ⟨?_, by decide⟩
  rw [analyzeDataQuality_c7_dup]
  decide

theorem filter_flatten_nil (p : QIssue → Bool) (L : List (List QIssue))
    (h : ∀ l ∈ L, l.filter p = []) : L.flatten.filter p = [] := by
  induction L with
  | nil => rfl
  | cons l ls ih =>
    rw [List.flatten_cons, List.filter_append, h l (List.mem_cons_self _ _),
      ih (fun x hx => h x (List.mem_cons_of_mem _ hx))]
    rfl

/-- C7 (amended): on a 20-row dataset of which 5 rows are exact structural
duplicates, `analyzeDataQuality` emits exactly one duplicate issue, with no
column field, affectedRows 5, percentage 25 — and severity HIGH (the 25%
rate exceeds the `>20%` high threshold; `medium` covers only
`(10%, 20%]`). -/
theorem duplicate_issue_20_rows (sheet : ParsedData)
    (h20 : sheet.rows.length = 20) (h5 : (findDuplicates sheet.rows).1 = 5) :
    (analyzeDataQuality sheet).issues.filter
        (fun i => i.type == IssueType.duplicate)
      = [{ type := .duplicate, column := none, severity := .high,
           affectedRows := 5, percentage := 25 }] := by
  unfold analyzeDataQuality
  dsimp only
  rw [h20, h5]
  norm_num [duplicateSeverity]
  refine List.perm_singleton.mp ?_
  refine (List.Perm.filter _ (jsSort_perm _ _)).trans ?_
  rw [List.filter_append]
  rw [filter_flatten_nil _ _ ?_]
  · simp
  · intro l hl
    rcases List.mem_map.mp hl with ⟨q, hq, rfl⟩
    exact columnQuality_filter_duplicate q _ 20

theorem duplicate_issue_20_rows_witness :
    (analyzeDataQuality sheetC7).issues.filter
        (fun i => i.type == IssueType.duplicate)
      = [{ type := .duplicate, column := none, severity := .high,
           affectedRows := 5, percentage := 25 }] :=
  duplicate_issue_20_rows sheetC7 (by decide) (by decide)

theorem missingPart_snd_nonneg (col : ColumnInfo) (n : ℕ) :
    0 ≤ (missingPart col n).2 := by
  unfold missingPart
  dsimp only
  split_ifs with h0 h5
  · exact le_min (by linarith) (by norm_num)
  · norm_num
  · norm_num

theorem outlierPart_snd_nonneg (col : ColumnInfo) (values : List Val) :
    0 ≤ (outlierPart col values).2 := by
  unfold outlierPart
  dsimp only
  split_ifs with h1 h2
  · exact le_min (by linarith) (by norm_num)
  · norm_num
  · norm_num

theorem mixedPart_snd_nonneg (col : ColumnInfo) (values : List Val) (n : ℕ) :
    0 ≤ (mixedPart col values n).2 := by
  unfold mixedPart
  split_ifs <;> norm_num

theorem columnQuality_snd_le_100 (col : ColumnInfo) (values : List Val) (n : ℕ) :
    (columnQuality col values n).2 ≤ 100 := by
  unfold columnQuality
  dsimp only
  have h1 := missingPart_snd_nonneg col n
  have h2 := outlierPart_snd_nonneg col values
  have h3 := mixedPart_snd_nonneg col values n
  linarith

theorem round_le_100 (x : ℚ) (h : x ≤ 100) : round x ≤ 100 := by
  rw [round_eq]
  have h1 : (⌊x + 1 / 2⌋ : ℤ) ≤ ⌊(100 : ℚ) + 1 / 2⌋ :=
    Int.floor_le_floor (by linarith)
  have h2 : (⌊(100 : ℚ) + 1 / 2⌋ : ℤ) = 100 := by norm_num
  exact h1.trans_eq h2

theorem mem_assocSet (m : List (String × ℤ)) (k : String) (v : ℤ)
    (p : String × ℤ) (hp : p ∈ assocSet m k v) : p ∈ m ∨ p.2 = v := by
  unfold assocSet at hp
  split_ifs at hp
  · rcases List.mem_map.mp hp with ⟨q, hq, rfl⟩
    by_cases h : q.1 = k
    · simp [h]
    · simp only [if_neg h]
      exact Or.inl hq
  · rcases List.mem_append.mp hp with h | h
    · exact Or.inl h
    · right
      rw [List.mem_singleton.mp h]

theorem assocSet_ne_nil (m : List (String × ℤ)) (k : String) (v : ℤ) :
    assocSet m k v ≠ [] := by
  unfold assocSet
  split_ifs with h
  · cases m with
    | nil => simp [List.lookup] at h
    | cons a l => simp
  · simp

theorem foldl_assocSet_mem {α : Type} (key : α → String) (val : α → ℤ)
    (P : ℤ → Prop) (L : List α) (init : List (String × ℤ))
    (hinit : ∀ p ∈ init, P p.2) (hval : ∀ x ∈ L, P (val x)) :
    ∀ p ∈ L.foldl (fun m x => assocSet m (key x) (val x)) init, P p.2 := by
  induction L generalizing init with
  | nil => exact hinit
  | cons x xs ih =>
    intro p hp
    refine ih (assocSet init (key x) (val x)) ?_
      (fun y hy => hval y (List.mem_cons_of_mem _ hy)) p hp
    intro q hq
    rcases mem_assocSet _ _ _ q hq with h | h
    · exact hinit q h
    · rw [h]
      exact hval x (List.mem_cons_self _ _)

theorem foldl_assocSet_ne_nil {α : Type} (key : α → String) (val : α → ℤ)
    (L : List α) (init : List (String × ℤ))
    (h : init ≠ [] ∨ L ≠ []) :
    L.foldl (fun m x => assocSet m (key x) (val x)) init ≠ [] := by
  induction L generalizing init with
  | nil => simpa using h.resolve_right (by simp)
  | cons x xs ih =>
    exact ih (assocSet init (key x) (val x)) (Or.inl (assocSet_ne_nil _ _ _))

theorem list_sum_le_100 (l : List ℤ) (h : ∀ x ∈ l, x ≤ 100) :
    l.sum ≤ 100 * l.length := by
  induction l with
  | nil => simp
  | cons x xs ih =>
    rw [List.sum_cons, List.length_cons]
    have hx := h x (List.mem_cons_self _ _)
    have hxs := ih (fun y hy => h y (List.mem_cons_of_mem _ hy))
    push_cast
    linarith

/-- C8: for every dataset with at least one column and at least one row,
`analyzeDataQuality` returns an `overallScore` in `[0, 100]` and a
`columnHealth` value in `[0, 100]` for every column. -/
theorem quality_scores_bounded (sheet : ParsedData)
    (hc : sheet.columns ≠ []) (hr : sheet.rows ≠ []) :
    (0 ≤ (analyzeDataQuality sheet).overallScore ∧
      (analyzeDataQuality sheet).overallScore ≤ 100) ∧
    ∀ p ∈ (analyzeDataQuality sheet).columnHealth, 0 ≤ p.2 ∧ p.2 ≤ 100 := by
  unfold analyzeDataQuality
  dsimp only
  have hch : ∀ p ∈ (sheet.columns.map (fun col =>
        (col, columnQuality col (cellsOf sheet.rows col.name) sheet.rows.length))).foldl
        (fun m p => assocSet m p.1.name (max 0 (round p.2.2))) [],
      0 ≤ p.2 ∧ p.2 ≤ 100 := by
    refine foldl_assocSet_mem
      (fun p : ColumnInfo × (List QIssue × ℚ) => p.1.name)
      (fun p : ColumnInfo × (List QIssue × ℚ) => max 0 (round p.2.2))
      (fun z => 0 ≤ z ∧ z ≤ 100) _ [] (by simp) ?_
    intro x hx
    refine ⟨le_max_left 0 _, max_le (by norm_num) ?_⟩
    rcases List.mem_map.mp hx with ⟨col, hcol, rfl⟩
    exact round_le_100 _ (columnQuality_snd_le_100 col _ _)
  have hne : (sheet.columns.map (fun col =>
        (col, columnQuality col (cellsOf sheet.rows col.name) sheet.rows.length))).foldl
        (fun m p => assocSet m p.1.name (max 0 (round p.2.2))) [] ≠ [] := by
    refine foldl_assocSet_ne_nil
      (fun p : ColumnInfo × (List QIssue × ℚ) => p.1.name)
      (fun p : ColumnInfo × (List QIssue × ℚ) => max 0 (round p.2.2)) _ [] (Or.inr ?_)
    simpa using hc
  refine ⟨⟨le_max_left 0 _, ?_⟩, hch⟩
  refine max_le (by norm_num) (round_le_100 _ ?_)
  set CH := (sheet.columns.map (fun col =>
      (col, columnQuality col (cellsOf sheet.rows col.name) sheet.rows.length))).foldl
      (fun m p => assocSet m p.1.name (max 0 (round p.2.2))) [] with hCH
  have hlen : 0 < (CH.length : ℚ) := by
    have := List.length_pos.mpr hne
    exact_mod_cast this
  have hsum : (CH.map Prod.snd).sum ≤ 100 * (CH.map Prod.snd).length := by
    refine list_sum_le_100 _ ?_
    intro x hx
    rcases List.mem_map.mp hx with ⟨p, hp, rfl⟩
    exact (hch p hp).2
  have havg : (((CH.map Prod.snd).sum : ℤ) : ℚ) / (CH.length : ℚ) ≤ 100 := by
    rw [div_le_iff₀ hlen]
    rw [List.length_map] at hsum
    calc (((CH.map Prod.snd).sum : ℤ) : ℚ) ≤ ((100 * CH.length : ℤ) : ℚ) := by
          exact_mod_cast hsum
      _ = 100 * (CH.length : ℚ) := by push_cast; ring
  exact le_trans (sub_le_self _ (le_min (by positivity) (by norm_num))) havg

theorem quality_scores_bounded_witness :
    0 ≤ (analyzeDataQuality sheetOne).overallScore ∧
    (analyzeDataQuality sheetOne).overallScore ≤ 100 :=
  (quality_scores_bounded sheetOne (by decide) (by decide)).1

theorem mixed_type_issue_flat_witness :
    (columnQuality ⟨"m", .string, 2, 0, none, none, none, none⟩
        [Val.vNum 1, Val.vStr "abc"] 2).1.filter
        (fun i => i.type == IssueType.mixed_type)
      = [{ type := .mixed_type, column := some "m", severity := .medium,
           affectedRows := 2, percentage := 100 }] :=
  (mixed_type_issue_flat ⟨"m", .string, 2, 0, none, none, none, none⟩
    [Val.vNum 1, Val.vStr "abc"] 2 (by decide)).1

end DataViz
